import Mathlib

/-!
Verification of the task-scheduler core of `05_automation/task_scheduler.py`.

The Python module is shallowly embedded: Python `str` methods used by the
scheduler are modelled as structurally recursive functions on `String.data`
(`pyLower`, `pyStrip`, ...); `datetime` instants are a `Nat` clock in seconds;
the SQLite `task_history` table is a `List TaskResult`; the `schedule`
module's global job list is a `List SchedJob`.  Side-effectful collaborators
(subprocess, requests, psutil) are modelled by explicit outcome parameters
(`ShellOutcome`, `Except` values): an `Except.error` stands for a Python
exception raised by the collaborator.
-/

namespace Sched

/-! ## Models of the Python `str` methods used by the scheduler -/

/-- Model of Python `str.startswith`: is the first list a prefix of the
second? -/
def listStartsWith : List Char → List Char → Bool
  | [], _ => true
  | _ :: _, [] => false
  | a :: as, b :: bs => a == b && listStartsWith as bs

/-- Model of Python `str.startswith(pat)`. -/
def pyStartsWith (s pat : String) : Bool :=
  listStartsWith pat.data s.data

/-- Model of Python `pat in s` (substring containment). -/
def listContainsSub (sub : List Char) : List Char → Bool
  | [] => listStartsWith sub []
  | c :: cs => listStartsWith sub (c :: cs) || listContainsSub sub cs

/-- Model of Python `sub in s`. -/
def pyContains (s sub : String) : Bool :=
  listContainsSub sub.data s.data

/-- Model of Python `str.lower` (ASCII case, which is all the scheduler's
expressions use). -/
def pyLower (s : String) : String :=
  ⟨s.data.map Char.toLower⟩

/-- Model of Python `str.strip`: drop leading and trailing whitespace. -/
def pyStrip (s : String) : String :=
  ⟨((s.data.dropWhile Char.isWhitespace).reverse.dropWhile Char.isWhitespace).reverse⟩

/-- Auxiliary for `pySplitWs`: split on whitespace runs, dropping empties,
like Python `str.split()` with no argument. -/
def splitWsAux : List Char → List Char → List String
  | [], acc => if acc.isEmpty then [] else [⟨acc.reverse⟩]
  | c :: cs, acc =>
    if c.isWhitespace then
      if acc.isEmpty then splitWsAux cs [] else ⟨acc.reverse⟩ :: splitWsAux cs []
    else splitWsAux cs (c :: acc)

/-- Model of Python `str.split()` (no separator argument). -/
def pySplitWs (s : String) : List String :=
  splitWsAux s.data []

/-- Auxiliary for `pySplitOn`: fuel-indexed splitting on a separator,
keeping empty pieces, like Python `str.split(sep)`.  Fuel at least the
length of the input makes the fallback branch unreachable. -/
def splitOnFuel (sep : List Char) : Nat → List Char → List Char → List String
  | _, [], acc => [⟨acc.reverse⟩]
  | 0, l, acc => [⟨acc.reverse ++ l⟩]
  | fuel + 1, c :: cs, acc =>
    if listStartsWith sep (c :: cs) then
      ⟨acc.reverse⟩ :: splitOnFuel sep fuel ((c :: cs).drop sep.length) []
    else
      splitOnFuel sep fuel cs (c :: acc)

/-- Model of Python `str.split(sep)` for a non-empty separator. -/
def pySplitOn (s sep : String) : List String :=
  splitOnFuel sep.data s.data.length s.data []

/-- Auxiliary for `pyReplace`: fuel-indexed replacement of every occurrence,
like Python `str.replace(old, new)`. -/
def replaceFuel (sep repl : List Char) : Nat → List Char → List Char
  | _, [] => []
  | 0, l => l
  | fuel + 1, c :: cs =>
    if listStartsWith sep (c :: cs) then
      repl ++ replaceFuel sep repl fuel ((c :: cs).drop sep.length)
    else
      c :: replaceFuel sep repl fuel cs

/-- Model of Python `str.replace(old, new)` for a non-empty `old`. -/
def pyReplace (s old new : String) : String :=
  ⟨replaceFuel old.data new.data s.data.length s.data⟩

/-- Model of Python `str.isdigit` (ASCII digits; empty string is `False`). -/
def pyIsDigit (s : String) : Bool :=
  decide (s.data ≠ []) && s.data.all Char.isDigit

/-- Model of Python `int()` applied to a digit string. -/
def pyToNat (s : String) : Nat :=
  s.data.foldl (fun n c => n * 10 + (c.toNat - 48)) 0

/-! ## Data model: `TaskStatus`, `TaskResult`, `Task`
    (task_scheduler.py lines 43-101) -/

/-- `TaskStatus` enum (lines 43-50). -/
inductive TaskStatus
  | pending
  | running
  | completed
  | failed
  | cancelled
  | skipped
deriving DecidableEq

/-- The terminal statuses in the sense of the spec's TaskResult invariant:
completed, failed, cancelled, skipped. -/
def TaskStatus.isTerminal : TaskStatus → Bool
  | .completed => true
  | .failed => true
  | .cancelled => true
  | .skipped => true
  | _ => false

/-- `TaskResult` dataclass (lines 53-62).  Timestamps are seconds on a `Nat`
clock; `execution_time` is the duration in whole seconds. -/
structure TaskResult where
  task_id : String
  status : TaskStatus
  start_time : Nat
  end_time : Option Nat
  output : String
  error : Option String
  execution_time : Nat
deriving DecidableEq

/-- The `Task` class (lines 65-101), constructor defaults included via
`mkTask` below.  The runtime fields `last_run`, `next_run`, `retry_count`,
`is_running` are as in `Task.__init__`. -/
structure Task where
  task_id : String
  name : String
  command : String
  schedule_expr : String
  enabled : Bool
  max_retries : Nat
  timeout : Nat
  dependencies : List String
  notify_on_success : Bool
  notify_on_failure : Bool
  last_run : Option Nat
  next_run : Option Nat
  retry_count : Nat
  is_running : Bool
deriving DecidableEq

/-- A freshly constructed `Task` (`Task.__init__`): `last_run`/`next_run`
none, `retry_count` 0, `is_running` false. -/
def mkTask (id nm cmd expr : String) (enabled : Bool)
    (maxRetries timeout : Nat) (deps : List String) : Task :=
  { task_id := id, name := nm, command := cmd, schedule_expr := expr,
    enabled := enabled, max_retries := maxRetries, timeout := timeout,
    dependencies := deps, notify_on_success := false,
    notify_on_failure := true, last_run := none, next_run := none,
    retry_count := 0, is_running := false }

/-- The registry `self.tasks : Dict[str, Task]`, modelled as an association
list in insertion order (Python dict order).  Lookup is `self.tasks[id]` /
`id in self.tasks`. -/
def lookupTask (tasks : List (String × Task)) (id : String) : Option Task :=
  match tasks.find? (fun p => p.1 == id) with
  | some p => some p.2
  | none => none

/-- Python dict assignment `self.tasks[task_id] = task`: replace in place if
the key exists, otherwise append. -/
def setTask (tasks : List (String × Task)) (id : String) (t : Task) :
    List (String × Task) :=
  if tasks.any (fun p => p.1 == id) then
    tasks.map (fun p => if p.1 == id then (id, t) else p)
  else
    tasks ++ [(id, t)]

/-! ## Dependency gate (`_check_dependencies`, lines 529-543) -/

/-- Models `TaskScheduler._check_dependencies`: every dependency id must be
present in the registry and its `last_run` must be non-null and at most 24
hours (86400 seconds) before `now`.  Nothing about the *status* of that last
run is consulted. -/
def checkDependencies (tasks : List (String × Task)) (now : Nat)
    (task : Task) : Bool :=
  task.dependencies.all fun depId =>
    match lookupTask tasks depId with
    | none => false
    | some dep =>
      match dep.last_run with
      | none => false
      | some lr => decide (now - lr ≤ 86400)

/-! ## Executor (`_execute_task`, lines 545-623) -/

/-- Outcome of the `subprocess.Popen` + `communicate(timeout=...)` pair for a
shell command: either the process exits with a return code and captured
stdout/stderr, or `communicate` raises `TimeoutExpired`. -/
inductive ShellOutcome
  | exited (returncode : Int) (stdoutText stderrText : String)
  | timedOut
deriving DecidableEq

/-- Environment supplied to one `_execute_task` call: the behaviour of the
external collaborators.  `http` is the outcome of `requests.get` inside
`_execute_http_request`: `.ok` carries status code and body text, `.error`
means the request raised (the method re-raises it as
`Exception("HTTP request failed: ...")`). -/
structure ExecEnv where
  shell : ShellOutcome
  http : Except String (Nat × String)

/-- The error text used on `subprocess.TimeoutExpired` (line 595). -/
def pyTimeoutMsg (timeout : Nat) : String :=
  "Task timed out after " ++ toString timeout ++ " seconds"

/-- The `try:` block of `_execute_task` (lines 561-596): dispatch on the
command's string prefix and record the outcome into the result.  Returns the
updated result together with `some msg` when an exception escapes to the
`except Exception` clause.  Note the `python:` branch and the successful
`http(s):` branch leave the result record untouched (its status stays
`running`): the code computes `output` into a local variable only. -/
def tryBlock (task : Task) (env : ExecEnv) (r : TaskResult) :
    TaskResult × Option String :=
  if pyStartsWith task.command "python:" then
    (r, none)
  else if pyStartsWith task.command "http:" || pyStartsWith task.command "https:" then
    match env.http with
    | .ok _ => (r, none)
    | .error msg => (r, some ("HTTP request failed: " ++ msg))
  else
    match env.shell with
    | .exited rc out err =>
      if rc == 0 then
        ({ r with status := .completed, output := out }, none)
      else
        ({ r with status := .failed, error := some err }, none)
    | .timedOut =>
      ({ r with status := .failed, error := some (pyTimeoutMsg task.timeout) }, none)

/-- Lines 598-623 of `_execute_task`: the post-dispatch update of lines
599-600 (which runs exactly when no in-process exception was raised — which
includes a shell command exiting non-zero and a shell timeout — and sets
`last_run` and resets `retry_count` to 0), the `except Exception` clause,
and the `finally:` block, which unconditionally sets `end_time`, clears
`is_running`, saves the result, and, when the result is failed and
`retry_count < max_retries`, increments `retry_count` and starts a 60 second
retry timer targeting `_execute_task` itself. -/
def exceptFinally (t1 : Task) (r1 : TaskResult) (raised : Option String)
    (startT endT : Nat) (hist : List TaskResult) :
    Task × TaskResult × List TaskResult × Bool :=
  let tr2 : Task × TaskResult :=
    match raised with
    | none => ({ t1 with last_run := some startT, retry_count := 0 }, r1)
    | some msg => (t1, { r1 with status := .failed, error := some msg })
  let r3 : TaskResult :=
    { tr2.2 with end_time := some endT, execution_time := endT - startT }
  let t3 : Task := { tr2.1 with is_running := false }
  let hist2 := hist ++ [r3]
  if r3.status = .failed ∧ t3.retry_count < t3.max_retries then
    ({ t3 with retry_count := t3.retry_count + 1 }, r3, hist2, true)
  else
    (t3, r3, hist2, false)

/-- Models `TaskScheduler._execute_task` (lines 545-623).  `startT` and
`endT` are `datetime.now()` at entry and in the `finally:` block; `hist` is
the `task_history` table, to which `_save_task_result` appends one row.  The
returned `Bool` records whether a retry `threading.Timer` was started.  The
entry code marks the task running and creates the result in `running`
status; the dispatch is `tryBlock` and everything after it is
`exceptFinally`. -/
def executeTask (task : Task) (env : ExecEnv) (startT endT : Nat)
    (hist : List TaskResult) : Task × TaskResult × List TaskResult × Bool :=
  let t1 : Task := { task with is_running := true }
  let r0 : TaskResult :=
    { task_id := t1.task_id, status := .running, start_time := startT,
      end_time := none, output := "", error := none, execution_time := 0 }
  exceptFinally t1 (tryBlock t1 env r0).1 (tryBlock t1 env r0).2 startT endT hist

/-- Models `_execute_task_wrapper` (lines 516-527): the is-running guard and
the dependency gate in front of the scheduled-trigger path.  A guarded-out
fire only logs: the task and the history are unchanged and no retry timer is
started — in particular no `TaskResult` of any status is created for it. -/
def executeTaskWrapper (tasks : List (String × Task)) (task : Task)
    (env : ExecEnv) (startT endT : Nat) (hist : List TaskResult) :
    Task × List TaskResult × Bool :=
  if task.is_running then
    (task, hist, false)
  else if checkDependencies tasks startT task = false then
    (task, hist, false)
  else
    match executeTask task env startT endT hist with
    | (t, _, h, retry) => (t, h, retry)

/-- Models `run_task_immediately` (lines 710-726).  An id absent from the
registry logs an error and returns `False`.  A present id spawns a thread
running `_execute_task` directly — with no enabled-flag, is-running, or
dependency check — and returns `True`; the spawned execution's effect is
modelled synchronously (third component: the task as updated by it). -/
def runTaskImmediately (tasks : List (String × Task)) (id : String)
    (env : ExecEnv) (startT endT : Nat) (hist : List TaskResult) :
    Bool × List TaskResult × Option Task :=
  match lookupTask tasks id with
  | none => (false, hist, none)
  | some t =>
    match executeTask t env startT endT hist with
    | (t2, _, h, _) => (true, h, some t2)

/-! ## Watcher closures (`_setup_url_monitor` 469-493,
    `_setup_resource_monitor` 495-514) -/

/-- Models the `check_url` closure installed by `_setup_url_monitor`.
`fetch` is the outcome of `requests.get(url)` followed by
`hash(response.text)` (Python `hash` modelled as `Int`); `last` is the
task's `_last_url_hash` attribute, absent (`none`) before the first
successful poll.  The whole body sits inside `try/except`, so the job never
lets an exception escape: the value is always `.ok`, carrying the new stored
hash and whether `run_task_immediately` was invoked. -/
def checkUrl (fetch : Except String Int) (last : Option Int) :
    Except String (Option Int × Bool) :=
  match fetch with
  | .error _ => .ok (last, false)
  | .ok h =>
    match last with
    | none => .ok (some h, false)
    | some h0 =>
      if h ≠ h0 then .ok (some h, true) else .ok (some h0, false)

/-- Models the `check_resources` closure installed by
`_setup_resource_monitor`.  `query` is the combined outcome of the three
psutil calls (CPU, memory, disk usage percentages, as `Nat`); `.error` means
one of them raised.  The body has no `try/except`, so that error escapes the
job.  The `.ok` payload records whether `run_task_immediately` was invoked
(some threshold exceeded). -/
def checkResources (query : Except String (Nat × Nat × Nat))
    (cpuTh memTh diskTh : Nat) : Except String Bool :=
  match query with
  | .error e => .error e
  | .ok (c, m, d) => .ok (c > cpuTh || m > memTh || d > diskTh)

/-! ## The scheduler loop's job runs (`start`, lines 778-795) -/

/-- One due job as run by `schedule.run_pending()` inside the polling thread,
together with the environment for this run: a scheduled task fire (the
`_execute_task_wrapper` callable), a URL poll, or a resource poll. -/
inductive JobRun
  | execJob (tasks : List (String × Task)) (task : Task) (env : ExecEnv)
      (startT endT : Nat) (hist : List TaskResult)
  | urlJob (fetch : Except String Int) (last : Option Int)
  | resourceJob (query : Except String (Nat × Nat × Nat))
      (cpuTh memTh diskTh : Nat)

/-- Running one due job: `.error` means an exception escaped the job's
callable into `schedule.run_pending()` (the `schedule` library does not
catch job exceptions).  The execution wrapper catches everything inside
`_execute_task`'s `try/except/finally`, so its run always returns normally;
likewise the URL poll.  The resource poll propagates its query's error. -/
def runJob : JobRun → Except String Unit
  | .execJob tasks task env startT endT hist =>
    let _r := executeTaskWrapper tasks task env startT endT hist
    .ok ()
  | .urlJob fetch last => (checkUrl fetch last).map (fun _ => ())
  | .resourceJob query cpuTh memTh diskTh =>
    (checkResources query cpuTh memTh diskTh).map (fun _ => ())

/-- Models one `schedule.run_pending()` pass of the `run_scheduler` loop
(lines 787-790): due jobs run in order; the first exception that escapes a
job propagates out of `run_pending` and terminates the polling thread
(`.error`). -/
def runPending : List JobRun → Except String Unit
  | [] => .ok ()
  | j :: rest =>
    match runJob j with
    | .error e => .error e
    | .ok _ => runPending rest

/-! ## Schedule translator and registry state
    (`add_task` 303-326, `remove_task` 328-362, `_schedule_task` 364-390,
    `_parse_every_expression` 392-435, `_parse_at_expression` 437-446,
    `_parse_cron_expression` 448-453, `_setup_file_watcher` 455-467) -/

/-- The firing condition of one `schedule` job, as built by the
`schedule.every(...)` chains in the source. -/
inductive Trigger
  | everyMinutes (n : Nat)
  | everyMinute
  | everyHours (n : Nat)
  | everyHour
  | everyHourAt (t : String)
  | everyDay
  | everyDayAt (t : String)
  | everyWeeks (n : Nat)
  | everyWeek
  | weekdayAt (day t : String)
deriving DecidableEq

/-- What a `schedule` job's callable is: `_execute_task_wrapper` bound to a
task object, the `check_url` closure, or the `check_resources` closure. -/
inductive JobKind
  | execTask (task : Task)
  | urlCheck (task : Task) (url : String)
  | resourceCheck (task : Task)
deriving DecidableEq

/-- One entry of the `schedule` module's global job list: trigger, tag (the
argument of `.tag(...)`), and callable. -/
structure SchedJob where
  trigger : Trigger
  tag : String
  kind : JobKind
deriving DecidableEq

/-- One `schedule.every(...)...do(_execute_task_wrapper, task).tag(task_id)`
call. -/
def execJobFor (task : Task) (trig : Trigger) : SchedJob :=
  { trigger := trig, tag := task.task_id, kind := .execTask task }

/-- Models `_parse_every_expression` (lines 392-435).  Each
`schedule.every(...).do(...).tag(task_id)` call appends one job.  The source
handles only monday/tuesday among the weekday names ("... continue for other
days"), and since every weekday name contains the substring "day" those two
branches are unreachable anyway: such expressions are taken by the "day"
branch first. -/
def parseEveryExpression (task : Task) (expr : String) : List SchedJob :=
  let parts := pySplitWs expr
  if pyContains expr "minute" then
    if 3 ≤ parts.length ∧ pyIsDigit (parts.getD 1 "") then
      [execJobFor task (.everyMinutes (pyToNat (parts.getD 1 "")))]
    else
      [execJobFor task .everyMinute]
  else if pyContains expr "hour" then
    if pyContains expr "at" then
      [execJobFor task (.everyHourAt (pyStrip ((pySplitOn expr "at").getD 1 "")))]
    else if 3 ≤ parts.length ∧ pyIsDigit (parts.getD 1 "") then
      [execJobFor task (.everyHours (pyToNat (parts.getD 1 "")))]
    else
      [execJobFor task .everyHour]
  else if pyContains expr "day" then
    if pyContains expr "at" then
      [execJobFor task (.everyDayAt (pyStrip ((pySplitOn expr "at").getD 1 "")))]
    else
      [execJobFor task .everyDay]
  else if pyContains expr "week" then
    if 3 ≤ parts.length ∧ pyIsDigit (parts.getD 1 "") then
      [execJobFor task (.everyWeeks (pyToNat (parts.getD 1 "")))]
    else
      [execJobFor task .everyWeek]
  else if pyContains expr "monday" then
    let timeP :=
      if pyContains expr "at" then pyStrip ((pySplitOn expr "at").getD 1 "")
      else "09:00"
    [execJobFor task (.weekdayAt "monday" timeP)]
  else if pyContains expr "tuesday" then
    let timeP :=
      if pyContains expr "at" then pyStrip ((pySplitOn expr "at").getD 1 "")
      else "09:00"
    [execJobFor task (.weekdayAt "tuesday" timeP)]
  else
    []

/-- Models `_parse_at_expression` (lines 437-446). -/
def parseAtExpression (task : Task) (expr : String) : List SchedJob :=
  let timeP := pyStrip (pyReplace expr "at" "")
  if pyContains timeP "daily" then
    [execJobFor task (.everyDayAt (pyStrip (pyReplace timeP "daily" "")))]
  else
    [execJobFor task (.everyDayAt timeP)]

/-- Models `_schedule_task` (lines 364-390): dispatch on the (lowered,
stripped) schedule expression.  Returns the jobs appended to the `schedule`
module's global list and, for a file-watch task, the id under which an
observer is stored in `file_observers`.  Disabled tasks install nothing;
unknown expressions are logged and install nothing.  The cron branch
(`_parse_cron_expression`) degrades to a daily job tagged with the task id.
Note the URL monitor's job is tagged `task_id + "_url_monitor"` and the
resource monitor's `task_id + "_resource_monitor"`, not `task_id`. -/
def scheduleTask (task : Task) : List SchedJob × Option String :=
  if task.enabled = false then
    ([], none)
  else
    let expr := pyStrip (pyLower task.schedule_expr)
    if pyStartsWith expr "every" then
      (parseEveryExpression task expr, none)
    else if pyStartsWith expr "at" then
      (parseAtExpression task expr, none)
    else if pyStartsWith expr "cron:" then
      ([execJobFor task .everyDay], none)
    else if expr == "on_file_change" then
      (([] : List SchedJob),
       if pyContains task.command "watch:" then some task.task_id else none)
    else if pyStartsWith expr "on_url_change" then
      ([{ trigger := .everyMinutes 5, tag := task.task_id ++ "_url_monitor",
          kind := .urlCheck task (pyStrip (pyReplace expr "on_url_change:" "")) }],
       none)
    else if expr == "on_resource_threshold" then
      ([{ trigger := .everyMinute, tag := task.task_id ++ "_resource_monitor",
          kind := .resourceCheck task }],
       none)
    else
      ([], none)

/-- The scheduler's mutable state touched by add/remove: the task registry,
the `schedule` module's job list, and the keys of `file_observers`. -/
structure SchedState where
  tasks : List (String × Task)
  jobs : List SchedJob
  file_observers : List String
deriving DecidableEq

/-- Models `add_task` (lines 303-326): an existing id is logged as an update
and overwritten; the task is stored, `_schedule_task` runs (appending its
jobs to the global list — nothing is cleared first), tasks are saved, and
`True` is returned. -/
def addTask (st : SchedState) (task : Task) : SchedState × Bool :=
  let tasks := setTask st.tasks task.task_id task
  let jo := scheduleTask task
  let file_observers :=
    match jo.2 with
    | some id =>
      (st.file_observers.filter (fun o => o != id)) ++ [id]
    | none => st.file_observers
  ({ tasks := tasks, jobs := st.jobs ++ jo.1, file_observers := file_observers },
   true)

/-- Models `remove_task` (lines 328-362): a missing id logs a warning and
returns `False`; otherwise `schedule.clear(task_id)` removes the jobs tagged
with exactly the task id, the file observer (if any) is stopped and deleted,
and the task is deleted from the registry. -/
def removeTask (st : SchedState) (id : String) : SchedState × Bool :=
  match lookupTask st.tasks id with
  | none => (st, false)
  | some _ =>
    let jobs := st.jobs.filter (fun j => j.tag != id)
    let file_observers := st.file_observers.filter (fun o => o != id)
    let tasks := st.tasks.filter (fun p => p.1 != id)
    ({ tasks := tasks, jobs := jobs, file_observers := file_observers }, true)

/-- Number of installed `schedule` jobs carrying a given tag. -/
def countTag (jobs : List SchedJob) (id : String) : Nat :=
  (jobs.filter (fun j => j.tag == id)).length

/-! ## Concrete fixtures used by witnesses and counterexamples -/

/-- A shell task whose command always exits non-zero, with one allowed
retry. -/
def tC1 : Task := mkTask "t1" "always-fails" "false" "every 1 minutes" true 1 300 []

/-- A task currently marked running. -/
def tC2 : Task :=
  { mkTask "t2" "busy" "cmd" "every 1 minutes" true 0 300 [] with is_running := true }

/-- A task depending on an id absent from the registry. -/
def tC3 : Task := mkTask "t3" "dependent" "cmd" "every 1 minutes" true 0 300 ["missing_dep"]

/-- A prerequisite task whose shell command always fails. -/
def tC4dep : Task := mkTask "d1" "prereq" "false" "every 1 minutes" true 0 300 []

/-- A task depending on `tC4dep`. -/
def tC4child : Task := mkTask "c1" "child" "cmd" "every 1 minutes" true 0 300 ["d1"]

/-- An ordinary 5-minute interval task. -/
def tC7 : Task := mkTask "t7" "periodic" "echo hi" "every 5 minutes" true 0 300 []

/-- A URL-change-triggered task. -/
def tC8 : Task :=
  mkTask "t8" "watcher" "cmd" "on_url_change: http://example.com/x" true 0 300 []

/-- A disabled task with a missing prerequisite. -/
def tC10 : Task := mkTask "t10" "forced" "cmd" "every 1 minutes" false 0 300 ["absent"]

/-- The scheduler state before any task is added. -/
def stEmpty : SchedState := { tasks := [], jobs := [], file_observers := [] }

/-- State after adding the URL-change task. -/
def stC8 : SchedState := (addTask stEmpty tC8).1

/-- Environment where the shell command exits with code 1. -/
def envShellFail : ExecEnv := { shell := .exited 1 "" "boom", http := .ok (200, "") }

/-- Environment where the shell command exits with code 0. -/
def envShellOk : ExecEnv := { shell := .exited 0 "done" "", http := .ok (200, "") }

/-! ## Helper lemmas -/

/-- The try-block never changes the result's start timestamp. -/
theorem tryBlock_start_time (task : Task) (env : ExecEnv) (r : TaskResult) :
    (tryBlock task env r).1.start_time = r.start_time := by
  rcases env with ⟨shell, http⟩
  cases shell <;> cases http <;>
    simp only [tryBlock] <;> split_ifs <;> rfl

/-- The except/finally tail appends exactly the returned result row to the
history. -/
theorem exceptFinally_hist (t1 : Task) (r1 : TaskResult)
    (raised : Option String) (s e : Nat) (hist : List TaskResult) :
    (exceptFinally t1 r1 raised s e hist).2.2.1 =
      hist ++ [(exceptFinally t1 r1 raised s e hist).2.1] := by
  unfold exceptFinally
  cases raised <;> dsimp only <;> split <;> rfl

/-- The except/finally tail stamps the `finally:`-block time as the end
timestamp of the saved row. -/
theorem exceptFinally_end_time (t1 : Task) (r1 : TaskResult)
    (raised : Option String) (s e : Nat) (hist : List TaskResult) :
    (exceptFinally t1 r1 raised s e hist).2.1.end_time = some e := by
  unfold exceptFinally
  cases raised <;> dsimp only <;> split <;> rfl

/-- The except/finally tail keeps the result's start timestamp. -/
theorem exceptFinally_start_time (t1 : Task) (r1 : TaskResult)
    (raised : Option String) (s e : Nat) (hist : List TaskResult) :
    (exceptFinally t1 r1 raised s e hist).2.1.start_time = r1.start_time := by
  unfold exceptFinally
  cases raised <;> dsimp only <;> split <;> rfl

/-- `_execute_task` appends exactly the returned result row to the
history. -/
theorem executeTask_hist (task : Task) (env : ExecEnv) (s e : Nat)
    (hist : List TaskResult) :
    (executeTask task env s e hist).2.2.1 =
      hist ++ [(executeTask task env s e hist).2.1] := by
  unfold executeTask
  exact exceptFinally_hist _ _ _ _ _ _

/-- `_execute_task` stamps the `finally:`-block time as the end timestamp of
the saved row. -/
theorem executeTask_end_time (task : Task) (env : ExecEnv) (s e : Nat)
    (hist : List TaskResult) :
    (executeTask task env s e hist).2.1.end_time = some e := by
  unfold executeTask
  exact exceptFinally_end_time _ _ _ _ _ _

/-- `_execute_task` stamps its entry time as the start timestamp of the
saved row. -/
theorem executeTask_start_time (task : Task) (env : ExecEnv) (s e : Nat)
    (hist : List TaskResult) :
    (executeTask task env s e hist).2.1.start_time = s := by
  unfold executeTask
  rw [exceptFinally_start_time, tryBlock_start_time]

/-- Looking up the key just stored by Python dict assignment returns the
stored task. -/
theorem lookupTask_setTask_self (tasks : List (String × Task)) (id : String)
    (t : Task) : lookupTask (setTask tasks id t) id = some t := by
  unfold setTask
  split
  case isTrue hany =>
    induction tasks with
    | nil => simp at hany
    | cons p l ih =>
      simp only [List.map_cons]
      by_cases hp : p.1 == id
      · simp only [hp, if_pos rfl, lookupTask, List.find?]
        simp
      · simp only [List.any_cons, hp, Bool.false_or] at hany
        simp only [hp, if_neg, lookupTask, List.find?]
        simp only [Bool.false_eq_true, not_false_iff, hp]
        have := ih hany
        simpa [lookupTask, List.find?, hp] using this
  case isFalse hany =>
    induction tasks with
    | nil => simp [lookupTask, List.find?]
    | cons p l ih =>
      simp only [List.any_cons, Bool.or_eq_true, not_or] at hany
      simp only [List.cons_append, lookupTask, List.find?]
      have hp : (p.1 == id) = false := by
        cases h : p.1 == id
        · rfl
        · exact absurd h hany.1
      rw [hp]
      have := ih (by simpa using hany.2)
      simpa [lookupTask] using this

/-- Looking up a key in a list filtered to exclude that key returns
nothing. -/
theorem lookupTask_filter_ne (tasks : List (String × Task)) (id : String) :
    lookupTask (tasks.filter (fun p => p.1 != id)) id = none := by
  induction tasks with
  | nil => rfl
  | cons p l ih =>
    simp only [List.filter_cons]
    cases hp : p.1 == id
    · simpa [bne, hp, lookupTask, List.find?] using ih
    · simpa [bne, hp] using ih

/-! ## Claim C1 -/

/-- C1: the claim says that after `max_retries` consecutive failures no
further automatic retry is scheduled and that `retry_count` is reset to zero
only by a successful run.  Evaluating `_execute_task` at the failing input —
a shell task with `max_retries = 1` whose command always exits non-zero —
shows the code resets `retry_count` inside every failed shell run (lines
599-600 run whenever no in-process exception was raised), so the first
failure leaves `retry_count = 1` with a retry scheduled, and the retry run,
the streak's second consecutive failure, again ends with a retry timer
started: the retry streak never exhausts. -/
theorem c1_retry_cap_violated :
    tC1.max_retries = 1 ∧
    (executeTask tC1 envShellFail 0 1 []).2.1.status = TaskStatus.failed ∧
    (executeTask tC1 envShellFail 0 1 []).1.retry_count = 1 ∧
    (executeTask tC1 envShellFail 0 1 []).2.2.2 = true ∧
    (executeTask (executeTask tC1 envShellFail 0 1 []).1 envShellFail 70 71
        (executeTask tC1 envShellFail 0 1 []).2.2.1).2.1.status = TaskStatus.failed ∧
    (executeTask (executeTask tC1 envShellFail 0 1 []).1 envShellFail 70 71
        (executeTask tC1 envShellFail 0 1 []).2.2.1).2.2.2 = true := by
  decide

/-! ## Claim C2 -/

/-- C2 counterexample: a task whose is-running flag is set is dispatched
anyway by `run_task_immediately` (used by the force-run, file-watch,
URL-change, and resource paths): the call returns `True` and an execution
happens (one history row is produced), instead of the fire being dropped as
the claim states for every dispatch path. -/
theorem c2_counterexample :
    tC2.is_running = true ∧
    (runTaskImmediately [("t2", tC2)] "t2" envShellOk 0 1 []).1 = true ∧
    (runTaskImmediately [("t2", tC2)] "t2" envShellOk 0 1 []).2.1.length = 1 := by
  decide

/-- C2 amended: only the scheduled-trigger path (`_execute_task_wrapper`)
checks the is-running flag and drops the fire; `run_task_immediately`
dispatches every registered task unconditionally, and `_execute_task` itself
(the target of the retry timer) performs no is-running check and always
executes. -/
theorem c2_amended :
    (∀ tasks (task : Task) env s e hist, task.is_running = true →
        executeTaskWrapper tasks task env s e hist = (task, hist, false)) ∧
    (∀ tasks id (task : Task) env s e hist, lookupTask tasks id = some task →
        (runTaskImmediately tasks id env s e hist).1 = true ∧
        (runTaskImmediately tasks id env s e hist).2.1.length = hist.length + 1) ∧
    (∀ (task : Task) env s e hist,
        (executeTask task env s e hist).2.2.1.length = hist.length + 1) := by
  refine ⟨?_, ?_, ?_⟩
  · intro tasks task env s e hist h
    unfold executeTaskWrapper
    rw [h]
    simp
  · intro tasks id task env s e hist h
    unfold runTaskImmediately
    rw [h]
    dsimp only
    have hh := executeTask_hist task env s e hist
    rcases hex : executeTask task env s e hist with ⟨t2, r, h2, b⟩
    rw [hex] at hh
    dsimp only at hh ⊢
    exact ⟨rfl, by simp [hh]⟩
  · intro task env s e hist
    rw [executeTask_hist]
    simp

/-- C2 witness: the amended statement at concrete inputs. -/
theorem c2_amended_witness :
    tC2.is_running = true ∧
    executeTaskWrapper [] tC2 envShellOk 2 3 [] = (tC2, [], false) ∧
    (runTaskImmediately [("t2", tC2)] "t2" envShellFail 2 3 []).1 = true ∧
    (runTaskImmediately [("t2", tC2)] "t2" envShellFail 2 3 []).2.1.length = 1 :=
  ⟨rfl, c2_amended.1 [] tC2 envShellOk 2 3 [] rfl,
   (c2_amended.2.1 [("t2", tC2)] "t2" tC2 envShellFail 2 3 [] (by decide)).1,
   (c2_amended.2.1 [("t2", tC2)] "t2" tC2 envShellFail 2 3 [] (by decide)).2⟩

/-! ## Claim C3 -/

/-- C3 counterexample: a scheduled fire of a task whose dependency list
names an id absent from the registry is denied by the gate, but — contrary
to the claim — no TaskResult of any status (in particular none with status
skipped) is recorded: the wrapper only logs and returns, leaving the history
empty. -/
theorem c3_counterexample :
    checkDependencies [("t3", tC3)] 0 tC3 = false ∧
    executeTaskWrapper [("t3", tC3)] tC3 envShellOk 0 1 [] =
      (tC3, [], false) := by
  decide

/-- C3 amended: for fires dispatched through the scheduled-trigger wrapper,
a task with a missing or stale prerequisite never reaches the Executor and
its `retry_count` is unchanged, but the denied attempt is only logged: no
TaskResult row (skipped or otherwise) is created.  (Fires routed through
`run_task_immediately` — file-watch, URL-change, resource-threshold —
bypass the gate entirely.) -/
theorem c3_amended :
    ∀ tasks (task : Task) (env : ExecEnv) (s e : Nat) (hist : List TaskResult),
      task.is_running = false →
      checkDependencies tasks s task = false →
      executeTaskWrapper tasks task env s e hist = (task, hist, false) := by
  intro tasks task env s e hist h1 h2
  unfold executeTaskWrapper
  rw [h1, h2]
  simp

/-- C3 witness: the amended statement at a concrete input. -/
theorem c3_amended_witness :
    tC3.is_running = false ∧
    checkDependencies [("t3", tC3)] 5 tC3 = false ∧
    executeTaskWrapper [("t3", tC3)] tC3 envShellFail 5 6 [] = (tC3, [], false) :=
  ⟨rfl, by decide, c3_amended [("t3", tC3)] tC3 envShellFail 5 6 [] rfl (by decide)⟩

/-! ## Claim C4 -/

/-- C4: the claim (and the source's own comment, "Check if dependency ran
successfully in the last 24 hours") says a prerequisite whose latest run in
the window failed does not satisfy the gate.  Evaluating the code at the
failing input: the prerequisite's shell command exits non-zero at time 100,
the saved row has status failed, yet `last_run` is set (lines 599-600 run on
failed shell runs too) and `_check_dependencies` — which consults only
`last_run` recency, never the run's status — approves the dependent task at
time 200. -/
theorem c4_gate_accepts_failed_run :
    (executeTask tC4dep envShellFail 100 101 []).2.1.status = TaskStatus.failed ∧
    (executeTask tC4dep envShellFail 100 101 []).1.last_run = some 100 ∧
    tC4child.dependencies = ["d1"] ∧
    checkDependencies [("d1", (executeTask tC4dep envShellFail 100 101 []).1)]
      200 tC4child = true := by
  decide

/-! ## Claim C5 -/

/-- C5 counterexample: one polling pass in which the resource-threshold
job's psutil query raises terminates the scheduler thread — the exception
propagates out of `schedule.run_pending()` because `check_resources` has no
exception handler, contrary to the claim that every job catches its
exceptions at its own boundary. -/
theorem c5_counterexample :
    runPending [JobRun.resourceJob (Except.error "psutil raised") 80 80 90] =
      Except.error "psutil raised" := rfl

/-- C5 amended: task-execution wrapper jobs and URL-change polls catch
exceptions at their own boundary (their runs always return normally), but
the resource-threshold poll body has no handler: an exception from the
resource query escapes and propagates through `run_pending`, terminating
the polling thread. -/
theorem c5_amended :
    (∀ tasks task env s e hist,
        runJob (JobRun.execJob tasks task env s e hist) = Except.ok ()) ∧
    (∀ fetch last, runJob (JobRun.urlJob fetch last) = Except.ok ()) ∧
    (∀ msg cpuTh memTh diskTh rest,
        runPending (JobRun.resourceJob (Except.error msg) cpuTh memTh diskTh :: rest) =
          Except.error msg) := by
  refine ⟨fun _ _ _ _ _ _ => rfl, ?_, fun _ _ _ _ _ => rfl⟩
  intro fetch last
  show (checkUrl fetch last).map (fun _ => ()) = Except.ok ()
  unfold checkUrl
  cases fetch with
  | error e => rfl
  | ok h =>
    cases last with
    | none => rfl
    | some h0 =>
      dsimp only
      split <;> rfl

/-! ## Claim C6 -/

/-- C6: every `_execute_task` call, whatever the command kind and outcome,
appends exactly one row to the history — the returned result — whose start
timestamp is the entry time, whose end timestamp is set to the
`finally:`-block time (hence at least the start time, the clock being
monotone), and whose status can be terminal only with the end timestamp
set. -/
theorem c6_every_execution_one_row :
    ∀ (task : Task) (env : ExecEnv) (s e : Nat) (hist : List TaskResult),
      s ≤ e →
      (executeTask task env s e hist).2.2.1 =
          hist ++ [(executeTask task env s e hist).2.1] ∧
      (executeTask task env s e hist).2.1.start_time = s ∧
      (executeTask task env s e hist).2.1.end_time = some e ∧
      (executeTask task env s e hist).2.1.start_time ≤ e ∧
      ((executeTask task env s e hist).2.1.status.isTerminal = true →
        (executeTask task env s e hist).2.1.end_time ≠ none) := by
  intro task env s e hist hse
  refine ⟨executeTask_hist task env s e hist,
    executeTask_start_time task env s e hist,
    executeTask_end_time task env s e hist, ?_, ?_⟩
  · rw [executeTask_start_time]
    exact hse
  · intro _
    rw [executeTask_end_time]
    simp

/-- C6 witness: the statement at a concrete input. -/
theorem c6_witness :
    (3 : Nat) ≤ 5 ∧
    ((executeTask tC7 envShellOk 3 5 []).2.2.1 =
        [] ++ [(executeTask tC7 envShellOk 3 5 []).2.1] ∧
      (executeTask tC7 envShellOk 3 5 []).2.1.start_time = 3 ∧
      (executeTask tC7 envShellOk 3 5 []).2.1.end_time = some 5 ∧
      (executeTask tC7 envShellOk 3 5 []).2.1.start_time ≤ 5 ∧
      ((executeTask tC7 envShellOk 3 5 []).2.1.status.isTerminal = true →
        (executeTask tC7 envShellOk 3 5 []).2.1.end_time ≠ none)) :=
  ⟨by decide, c6_every_execution_one_row tC7 envShellOk 3 5 [] (by decide)⟩

/-! ## Claim C7 -/

/-- C7 counterexample: adding the same task twice reports success both
times, but afterwards two jobs tagged with the task id are installed —
`add_task` never clears the previously installed trigger — contrary to the
claim that exactly one trigger is installed afterwards. -/
theorem c7_counterexample :
    (addTask stEmpty tC7).2 = true ∧
    (addTask (addTask stEmpty tC7).1 tC7).2 = true ∧
    countTag (addTask (addTask stEmpty tC7).1 tC7).1.jobs "t7" = 2 := by
  decide

/-- C7 amended: adding a task whose identifier already exists overwrites the
registry definition and reports success, and installs the task's new
trigger jobs by appending them to the global job list — without removing any
previously installed job, so re-adding duplicates the trigger. -/
theorem c7_amended :
    ∀ (st : SchedState) (task : Task),
      (addTask st task).2 = true ∧
      lookupTask (addTask st task).1.tasks task.task_id = some task ∧
      (addTask st task).1.jobs = st.jobs ++ (scheduleTask task).1 := by
  intro st task
  exact ⟨rfl, lookupTask_setTask_self st.tasks task.task_id task, rfl⟩

/-! ## Claim C8 -/

/-- C8 counterexample: removing a URL-change task reports success and
deletes the registry entry, but the URL poll job — tagged
`"t8_url_monitor"`, which `schedule.clear("t8")` does not match — survives
the removal, contrary to the claim that every associated watcher is
cancelled. -/
theorem c8_counterexample :
    countTag stC8.jobs "t8_url_monitor" = 1 ∧
    (removeTask stC8 "t8").2 = true ∧
    lookupTask (removeTask stC8 "t8").1.tasks "t8" = none ∧
    countTag (removeTask stC8 "t8").1.jobs "t8_url_monitor" = 1 := by
  decide

/-- C8 amended: removing a present task succeeds, deletes the registry
entry, and cancels exactly the jobs tagged with the task id (so jobs with
derived tags such as `id + "_url_monitor"` and `id + "_resource_monitor"`
survive); a surviving poll that subsequently fires calls
`run_task_immediately` on the removed id, which returns `False` and
produces no new TaskResult row. -/
theorem c8_amended :
    ∀ (st : SchedState) (id : String) (task : Task),
      lookupTask st.tasks id = some task →
      (removeTask st id).2 = true ∧
      lookupTask (removeTask st id).1.tasks id = none ∧
      (removeTask st id).1.jobs = st.jobs.filter (fun j => j.tag != id) ∧
      ∀ (env : ExecEnv) (s e : Nat) (hist : List TaskResult),
        runTaskImmediately (removeTask st id).1.tasks id env s e hist =
          (false, hist, none) := by
  intro st id task h
  unfold removeTask
  rw [h]
  dsimp only
  refine ⟨rfl, lookupTask_filter_ne st.tasks id, rfl, ?_⟩
  intro env s e hist
  unfold runTaskImmediately
  rw [lookupTask_filter_ne]

/-- C8 witness: the amended statement at a concrete input. -/
theorem c8_amended_witness :
    lookupTask stC8.tasks "t8" = some tC8 ∧
    (removeTask stC8 "t8").2 = true ∧
    lookupTask (removeTask stC8 "t8").1.tasks "t8" = none ∧
    runTaskImmediately (removeTask stC8 "t8").1.tasks "t8" envShellOk 0 1 [] =
      (false, [], none) :=
  ⟨by decide, (c8_amended stC8 "t8" tC8 (by decide)).1,
   (c8_amended stC8 "t8" tC8 (by decide)).2.1,
   (c8_amended stC8 "t8" tC8 (by decide)).2.2.2 envShellOk 0 1 []⟩

/-! ## Claim C9 -/

/-- C9: the first successful URL poll only records the baseline hash and
does not fire; a later poll with an identical content hash does not fire;
a later poll with a different content hash fires exactly once and updates
the stored hash. -/
theorem c9_url_transitions :
    (∀ h : Int, checkUrl (Except.ok h) none = Except.ok (some h, false)) ∧
    (∀ h : Int, checkUrl (Except.ok h) (some h) = Except.ok (some h, false)) ∧
    (∀ h h0 : Int, h ≠ h0 →
        checkUrl (Except.ok h) (some h0) = Except.ok (some h, true)) := by
  refine ⟨fun h => rfl, fun h => ?_, fun h h0 hne => ?_⟩
  · unfold checkUrl
    simp
  · unfold checkUrl
    simp [hne]

/-- C9 witness: the three poll transitions at concrete hashes. -/
theorem c9_witness :
    checkUrl (Except.ok 1) none = Except.ok (some 1, false) ∧
    checkUrl (Except.ok 1) (some 1) = Except.ok (some 1, false) ∧
    checkUrl (Except.ok 2) (some 1) = Except.ok (some 2, true) :=
  ⟨c9_url_transitions.1 1, c9_url_transitions.2.1 1,
   c9_url_transitions.2.2 2 1 (by decide)⟩

/-! ## Claim C10 -/

/-- C10: `run_task_immediately` consults neither the enabled flag nor the
dependency gate: any registered task — the theorem assumes nothing about
`enabled` or the dependencies — is dispatched to `_execute_task` (one new
history row, the updated task returned) with result `True`, and only an id
absent from the registry yields `False` with nothing executed. -/
theorem c10_force_run :
    (∀ tasks id (task : Task) env s e hist, lookupTask tasks id = some task →
        (runTaskImmediately tasks id env s e hist).1 = true ∧
        (runTaskImmediately tasks id env s e hist).2.1.length = hist.length + 1 ∧
        (runTaskImmediately tasks id env s e hist).2.2 =
          some (executeTask task env s e hist).1) ∧
    (∀ tasks id env s e hist, lookupTask tasks id = none →
        runTaskImmediately tasks id env s e hist = (false, hist, none)) := by
  constructor
  · intro tasks id task env s e hist h
    unfold runTaskImmediately
    rw [h]
    dsimp only
    have hh := executeTask_hist task env s e hist
    rcases hex : executeTask task env s e hist with ⟨t2, r, h2, b⟩
    rw [hex] at hh
    dsimp only at hh ⊢
    exact ⟨rfl, by simp [hh], rfl⟩
  · intro tasks id env s e hist h
    unfold runTaskImmediately
    rw [h]

/-- C10 witness: a disabled task with a missing prerequisite is still
dispatched by the force-run path, and an unregistered id is refused. -/
theorem c10_witness :
    tC10.enabled = false ∧
    checkDependencies [("t10", tC10)] 0 tC10 = false ∧
    (runTaskImmediately [("t10", tC10)] "t10" envShellOk 0 1 []).1 = true ∧
    (runTaskImmediately [("t10", tC10)] "t10" envShellOk 0 1 []).2.1.length = 1 ∧
    runTaskImmediately [] "t10" envShellOk 0 1 [] = (false, [], none) :=
  ⟨rfl, by decide,
   (c10_force_run.1 [("t10", tC10)] "t10" tC10 envShellOk 0 1 [] (by decide)).1,
   (c10_force_run.1 [("t10", tC10)] "t10" tC10 envShellOk 0 1 [] (by decide)).2.1,
   c10_force_run.2 [] "t10" envShellOk 0 1 [] rfl⟩

end Sched
